import Mathlib

/-
  Verification of the retrieval-and-answering pipeline of the
  worldsun-app/coopeartion_project repository.

  The Python sources are shallowly embedded below:
  - gcp_service.py   : filename matching, segment retrieval, multi-product planning
  - generate.py      : the generation call made by query_knowledge_base
  - telegram_handler.py / main.py : chat command handlers and their registration

  External collaborators (the embedding backend, the Vertex search backend,
  the generation model, Notion and Redis) are modelled as oracles supplied in
  an environment value: the embedding computes exactly what the Python code
  computes from the oracle answers.  Floating point scores are modelled as
  exact rationals (built with mkRat so that all comparisons evaluate).
  Python string operations are re-implemented over character lists with the
  same semantics, so that every definition evaluates inside the kernel.
-/

namespace CoopKB

/- ------------------------------------------------------------------ -/
/- Character-list implementations of the Python string operations used  -/
/- ------------------------------------------------------------------ -/

/-- Characters of a string after Python `str.lower` (ASCII case folding;
the CJK characters appearing in this repository are unaffected by case). -/
def lowerChars (cs : List Char) : List Char := cs.map Char.toLower

/-- Python `str.lower` on a string. -/
def strLower (s : String) : String := ⟨lowerChars s.toList⟩

/-- Python `str.strip()` on a character list: drop leading and trailing
whitespace. -/
def trimChars (cs : List Char) : List Char :=
  ((cs.dropWhile Char.isWhitespace).reverse.dropWhile Char.isWhitespace).reverse

/-- Split a character list at every character satisfying `p`
(like `re.split` on a single-character class; runs of separators produce
empty groups, which the callers below discard after stripping). -/
def splitOnPred (p : Char → Bool) : List Char → List (List Char)
  | [] => [[]]
  | c :: rest =>
    match splitOnPred p rest with
    | [] => if p c then [[], []] else [[c]]
    | g :: gs => if p c then [] :: g :: gs else (c :: g) :: gs

/-- Python `str.replace(pat, repl)` (all non-overlapping occurrences, left
to right), written with explicit fuel so that it is structurally recursive;
callers pass the length of the subject as fuel, which always suffices. -/
def replaceChars (pat repl : List Char) : ℕ → List Char → List Char
  | _, [] => []
  | 0, s => s
  | n + 1, c :: rest =>
    if pat ≠ [] ∧ pat.isPrefixOf (c :: rest) then
      repl ++ replaceChars pat repl n ((c :: rest).drop pat.length)
    else
      c :: replaceChars pat repl n rest

/-- Python `str.replace` on strings. -/
def strReplace (s pat repl : String) : String :=
  ⟨replaceChars pat.toList repl.toList s.toList.length s.toList⟩

/-- Everything after the first occurrence of `sep` in the list. -/
def dropThroughFirst (sep : Char) : List Char → List Char
  | [] => []
  | c :: rest => if c == sep then rest else dropThroughFirst sep rest

/-- Python `s.split(sep, 1)[-1]`: the part after the first separator, or the
whole string when the separator does not occur. -/
def pyAfterFirst (sep : Char) (cs : List Char) : List Char :=
  if cs.contains sep then dropThroughFirst sep cs else cs

/-- Python `os.path.basename`: everything after the last `/`. -/
def basenameChars (cs : List Char) : List Char :=
  (cs.reverse.takeWhile (fun c => c != '/')).reverse

/-- The base part of Python `os.path.splitext` on a plain filename: cut at
the final dot, unless every character before that dot is itself a dot
(cf. `posixpath.splitext`: a leading-dots-only name keeps its "extension"). -/
def splitextBase (cs : List Char) : List Char :=
  if cs.contains '.' then
    let extLen := (cs.reverse.takeWhile (fun c => c != '.')).length
    let dotIdx := cs.length - extLen - 1
    let before := cs.take dotIdx
    if before.any (fun c => c != '.') then before else cs
  else cs

/-- Does `needle` occur as a contiguous sublist of the second argument
(Python `needle in hay` on strings)? -/
def containsSub (needle : List Char) : List Char → Bool
  | [] => needle.isEmpty
  | c :: rest => needle.isPrefixOf (c :: rest) || containsSub needle rest

/- ------------------------------------------------------------------ -/
/- Python truthiness helpers                                           -/
/- ------------------------------------------------------------------ -/

/-- Python truthiness of an optional string: `None` and `""` are falsy. -/
def truthyStr : Option String → Bool
  | none => false
  | some s => s ≠ ""

/-- Python `a or b` on two optional strings. -/
def pyOrOpt (a b : Option String) : Option String :=
  if truthyStr a then a else b

/-- Python `a or b` where the fallback is a plain string
(e.g. `search_query or user_question`). -/
def pyOrStr (a : Option String) (b : String) : String :=
  match a with
  | some s => if s ≠ "" then s else b
  | none => b

/-- Python `a or b` on an optional number: `None` and `0.0` are falsy
(this is exactly how `seg.get("score") or seg.get("confidenceScore") or 1.0`
behaves in gcp_service.py line 219). -/
def pyOrQ (a : Option ℚ) (b : ℚ) : ℚ :=
  match a with
  | some x => if x ≠ 0 then x else b
  | none => b

/- ------------------------------------------------------------------ -/
/- Data model (gcp_service.py)                                         -/
/- ------------------------------------------------------------------ -/

/-- One catalog entry built by `_fetch_all_filenames` (gcp_service.py
lines 54-69): the object name and the extension-stripped clean name. -/
structure FileInfo where
  blob_name : String
  clean_name : String
deriving DecidableEq, Repr

/-- One extractive segment as delivered by the search backend inside
`derived_struct_data["extractive_segments"]`. -/
structure RawSegment where
  content : String
  pageNumber : Option Int
  score : Option ℚ
  confidenceScore : Option ℚ
deriving DecidableEq, Repr

/-- One returned document's derived data (`title`, `document_title`,
`link`, `extractive_segments`). -/
structure SearchDoc where
  title : Option String
  document_title : Option String
  link : Option String
  extractive_segments : List RawSegment
deriving DecidableEq, Repr

/-- The backend summary object (`response.summary`). -/
structure SummaryObj where
  summary_text : String
deriving DecidableEq, Repr

/-- One search response: ranked documents plus the optional summary. -/
structure SearchResponse where
  results : List SearchDoc
  summary : Option SummaryObj
deriving DecidableEq, Repr

/-- One cleaned segment record as built by `_search_segments`
(gcp_service.py line 220). -/
structure Segment where
  text : String
  source_title : String
  page : Option Int
  score : ℚ
deriving DecidableEq, Repr

/-- The external collaborators of `GcpService`, as oracles:
`scored` gives, for a query text, the cosine-similarity score of every
entry of the in-memory filename embedding index (an empty list covers the
empty-keyword, empty-index and failed-embedding early returns of
`_match_filenames_by_vector`, all of which yield no matches);
`search` gives the backend outcome for a search query string
(an `Except.error` is a raised backend exception);
`gen` is the outcome of the single generation call
(`generate_with_gemini`, generate.py lines 238-296, performs no exception
handling around `client.models.generate_content`, so its outcome is the raw
call outcome). -/
structure Env where
  scored : String → List (ℚ × FileInfo)
  search : String → Except Unit SearchResponse
  gen : Except Unit String

/- ------------------------------------------------------------------ -/
/- Filename matcher: _match_filenames_by_vector (lines 102-134)        -/
/- ------------------------------------------------------------------ -/

/-- The base score threshold `threshold1 = 0.55` (line 102). -/
def BASE_THRESHOLD : ℚ := mkRat 11 20

/-- The high-confidence score threshold `0.7` (lines 123 and 253). -/
def HIGH_CONF : ℚ := mkRat 7 10

/-- Stable descending insertion of a scored entry (used to model Python's
stable `sort(key=..., reverse=True)`). -/
def insertMatchDesc (a : ℚ × FileInfo) : List (ℚ × FileInfo) → List (ℚ × FileInfo)
  | [] => [a]
  | b :: bs => if b.1 ≤ a.1 then a :: b :: bs else b :: insertMatchDesc a bs

/-- Stable sort of scored entries by score, descending (Python
`final_matches.sort(key=lambda x: x[0], reverse=True)`, line 128; Python's
sort is stable, and a stable descending sort is unique, so this insertion
sort returns exactly the list the Python code builds). -/
def sortMatchesDesc (l : List (ℚ × FileInfo)) : List (ℚ × FileInfo) :=
  l.foldr insertMatchDesc []

/-- `_match_filenames_by_vector` (gcp_service.py lines 102-134) after the
per-entry cosine scores have been computed: keep entries scoring at least
`threshold1`; if any entry scores at least 0.7 keep only those; sort
descending by score and return the first `top_k`. -/
def matchFilenamesByVector (scored : List (ℚ × FileInfo)) (top_k : ℕ)
    (threshold1 : ℚ) : List (ℚ × FileInfo) :=
  let kept_matches := scored.filter (fun m => threshold1 ≤ m.1)
  let high_confidence_matches := kept_matches.filter (fun m => HIGH_CONF ≤ m.1)
  let final_matches :=
    if high_confidence_matches = [] then kept_matches else high_confidence_matches
  (sortMatchesDesc final_matches).take top_k

/- ------------------------------------------------------------------ -/
/- Segment retriever: _search_segments (lines 136-224)                 -/
/- ------------------------------------------------------------------ -/

/-- The filename title parsed from a document link (lines 199-205): strip
the `gs://` scheme by splitting at the first slash, take the last path
element, drop the extension.  `None` when there is no (truthy) link. -/
def parseFilenameTitle : Option String → Option String
  | none => none
  | some link =>
    if link = "" then none
    else
      let path :=
        if "gs://".toList.isPrefixOf link.toList then pyAfterFirst '/' link.toList
        else link.toList
      some ⟨splitextBase (basenameChars path)⟩

/-- The display title of a document (line 207): `"<filename>（<raw>）"` when
both exist, otherwise whichever exists, otherwise the untitled placeholder. -/
def displayTitle (doc : SearchDoc) : String :=
  let raw_title := pyOrOpt doc.title doc.document_title
  let filename_title := parseFilenameTitle doc.link
  if truthyStr raw_title && truthyStr filename_title then
    (filename_title.getD "") ++ "（" ++ (raw_title.getD "") ++ "）"
  else
    pyOrStr (pyOrOpt raw_title filename_title) "未命名文件"

/-- The score of one raw segment (line 219):
`seg.get("score") or seg.get("confidenceScore") or 1.0`. -/
def segmentScore (seg : RawSegment) : ℚ :=
  pyOrQ seg.score (pyOrQ seg.confidenceScore (mkRat 1 1))

/-- Membership test `filename_title not in allowed_filenames` negated
(line 210); a document without a parsed title is never a member. -/
def filenameAllowed (l : List String) (doc : SearchDoc) : Bool :=
  match parseFilenameTitle doc.link with
  | some t => t ∈ l
  | none => false

/-- Whether a document survives the allow-list check (lines 209-212):
Python `if allowed_filenames:` makes the filter inactive for `None` and for
an empty list. -/
def docKept (allowed : Option (List String)) (doc : SearchDoc) : Bool :=
  match allowed with
  | none => true
  | some l => if l = [] then true else filenameAllowed l doc

/-- The segment records one kept document contributes (lines 214-220):
one record per extractive segment with non-empty content. -/
def docSegments (doc : SearchDoc) : List Segment :=
  doc.extractive_segments.filterMap (fun seg =>
    if seg.content = "" then none
    else some { text := seg.content, source_title := displayTitle doc,
                page := seg.pageNumber, score := segmentScore seg })

/-- Stable descending insertion of a segment (same remark as
`insertMatchDesc`). -/
def insertSegDesc (a : Segment) : List Segment → List Segment
  | [] => [a]
  | b :: bs => if b.score ≤ a.score then a :: b :: bs else b :: insertSegDesc a bs

/-- Stable sort of segments by score, descending
(`segments_info.sort(key=lambda x: x["score"], reverse=True)`, line 222). -/
def sortSegsDesc (l : List Segment) : List Segment :=
  l.foldr insertSegDesc []

/-- Processing of a successful search response (lines 192-224): collect the
segments of the allow-listed documents in backend order, sort by score
descending, truncate to `top_segments`, and pair with the summary. -/
def processResponse (resp : SearchResponse) (allowed : Option (List String))
    (top_segments : ℕ) : List Segment × Option SummaryObj :=
  let segments_info := (resp.results.filter (docKept allowed)).flatMap docSegments
  ((sortSegsDesc segments_info).take top_segments, resp.summary)

/-- `_search_segments` (gcp_service.py lines 136-224).  The backend is
queried with `search_query or user_question` (line 176); a raised backend
exception (lines 184-190) yields `([], None)`. -/
def searchSegments (env : Env) (user_question : String)
    (search_query : Option String) (allowed : Option (List String))
    (top_segments : ℕ) : List Segment × Option SummaryObj :=
  let final_query := pyOrStr search_query user_question
  match env.search final_query with
  | .error _ => ([], none)
  | .ok resp => processResponse resp allowed top_segments

/- ------------------------------------------------------------------ -/
/- Multi-product query planner: query_knowledge_base (lines 226-331)   -/
/- ------------------------------------------------------------------ -/

/-- The design constant `TOTAL_SEGMENT_TARGET = 12` (line 232). -/
def TOTAL_SEGMENT_TARGET : ℕ := 12

/-- The per-product quota `max(1, TOTAL_SEGMENT_TARGET // len(keywords))`
(line 238). -/
def quotaPerProduct (n : ℕ) : ℕ := max 1 (TOTAL_SEGMENT_TARGET / n)

/-- Quote stripping of the filter expression (line 234):
`product_filter.replace('"', '').replace("'", "")`. -/
def cleanFilterStr (s : String) : String :=
  ⟨s.toList.filter (fun c => c != '"' && c != Char.ofNat 39)⟩

/-- Keyword splitting (line 235): split the cleaned filter on commas and
newlines, strip whitespace, discard empties. -/
def splitKeywords (s : String) : List String :=
  ((splitOnPred (fun c => c == ',' || c == '\n') s.toList).map
    (fun g => (⟨trimChars g⟩ : String))).filter (fun k => k ≠ "")

/-- The distinct characters of the lower-cased keyword:
Python `set(kw.lower())` (line 246); only the membership and the size of
this set matter, so any duplicate-free enumeration represents it. -/
def kwChars (kw : String) : List Char :=
  (lowerChars kw.toList).dedup

/-- The character-overlap coverage of a candidate (lines 248-250): the
fraction of the keyword's distinct characters present in the candidate's
lower-cased clean name, and 0.0 for an empty character set. -/
def coverage (kw : String) (info : FileInfo) : ℚ :=
  let cs := kwChars kw
  let clean := lowerChars info.clean_name.toList
  if cs = [] then mkRat 0 1
  else mkRat (cs.countP (fun c => clean.contains c) : ℤ) cs.length

/-- The coverage threshold for one candidate (lines 252-256): 0.5 when the
vector score is at least 0.7, otherwise 1.0 for keywords with fewer than 3
distinct characters and 0.6 for the rest. -/
def covThreshold (score : ℚ) (kw : String) : ℚ :=
  if HIGH_CONF ≤ score then mkRat 1 2
  else if (kwChars kw).length < 3 then mkRat 1 1 else mkRat 3 5

/-- The validated candidates of one keyword (lines 242-259): the top-3
vector matches whose coverage reaches the threshold.  (The `if not found:
continue` guard at line 243 is subsumed: an empty match list validates no
candidate.) -/
def validInfos (env : Env) (kw : String) : List FileInfo :=
  let found := matchFilenamesByVector (env.scored kw) 3 BASE_THRESHOLD
  found.filterMap (fun m =>
    if covThreshold m.1 kw ≤ coverage kw m.2 then some m.2 else none)

/-- The defensive rewrite of the user question (line 269): comparison terms
are replaced by neutral ones before building the search string. -/
def safeUserQuery (uq : String) : String :=
  strReplace (strReplace (strReplace uq "比較" "說明") "區別" "介紹") "差別" "內容"

/-- The per-keyword search string (lines 266-270). -/
def singleProductQuery (kw : String) (valid_names : List String)
    (uq : String) : String :=
  let files_context_str := String.intercalate " " valid_names
  files_context_str ++ " " ++ kw ++ " " ++ safeUserQuery uq ++ " 產品手冊 條款"

/-- The per-keyword retrieval question (line 267), passed as the
`user_question` of the sub-search (it is shadowed by the non-empty search
query when the request is built). -/
def miningQuestion (kw : String) : String :=
  "請詳細說明 " ++ kw ++ " 的產品特色、保障範圍與條款細節。"

/-- What one keyword contributes inside the loop of lines 241-285: its
retrieved segments (at most `quota` of them, via the sub-search's
`top_segments`) and its allow-list of validated clean names; a keyword with
no validated candidate contributes nothing (`continue`). -/
def kwResolve (env : Env) (uq : String) (quota : ℕ) (kw : String) :
    List Segment × List String :=
  let valid_infos := validInfos env kw
  if valid_infos = [] then ([], [])
  else
    let valid_names := valid_infos.map (fun i => i.clean_name)
    let segs := (searchSegments env (miningQuestion kw)
      (some (singleProductQuery kw valid_names uq)) (some valid_names) quota).1
    (segs, valid_names)

/-- One iteration of the keyword loop (lines 241-285): append the
keyword's segments and allow-list names to the accumulated
`(final_segments, display_names_all)`. -/
def kwStep (env : Env) (uq : String) (quota : ℕ)
    (acc : List Segment × List String) (kw : String) :
    List Segment × List String :=
  let r := kwResolve env uq quota kw
  (acc.1 ++ r.1, acc.2 ++ r.2)

/-- The whole multi-product phase (lines 233-285) for a truthy product
filter: accumulated `(final_segments, display_names_all)` over the split
keywords, each keyword retrieving with quota
`max(1, TOTAL_SEGMENT_TARGET // len(keywords))`. -/
def multiProductPhase (env : Env) (uq : String) (pf : String) :
    List Segment × List String :=
  let keywords := splitKeywords (cleanFilterStr pf)
  if keywords = [] then ([], [])
  else
    let quota := quotaPerProduct keywords.length
    keywords.foldl (kwStep env uq quota) ([], [])

/-- The `(final_segments, display_names_all)` pair after the multi-product
block (lines 229-285): empty when `product_filter` is falsy. -/
def phase1Result (env : Env) (uq : String) (product_filter : Option String) :
    List Segment × List String :=
  match product_filter with
  | none => ([], [])
  | some pf => if pf = "" then ([], []) else multiProductPhase env uq pf

/-- The opportunistic allow-list of the fallback retrieval (lines 290-297):
clean names of the top-5 vector matches of the whole question, or `None`
when nothing matched. -/
def fallbackAllowed (env : Env) (uq : String) : Option (List String) :=
  let vector_matches := matchFilenamesByVector (env.scored uq) 5 BASE_THRESHOLD
  if vector_matches = [] then none
  else some (vector_matches.map (fun m => m.2.clean_name))

/-- Truthiness of `summary_obj and summary_obj.summary_text` (line 307). -/
def hasSummaryText : Option SummaryObj → Bool
  | none => false
  | some s => s.summary_text ≠ ""

/-- The fixed terminal message of line 308. -/
def noContentMsg : String := "根據目前索引到的文件，找不到相關內容。"

/-- `query_knowledge_base` (gcp_service.py lines 226-331).  The returned
value is the outcome delivered to the caller: `Except.ok` a reply string,
or `Except.error` when the un-caught generation call raises.  The
`conversation_history` parameter only enters the assembled prompt, which
the generation oracle `env.gen` absorbs. -/
def queryKnowledgeBase (env : Env) (user_question : String)
    (product_filter : Option String) (search_query : Option String)
    (_conversation_history : Option String) : Except Unit String :=
  let phase1 := phase1Result env user_question product_filter
  let final_segments := phase1.1
  if final_segments = [] then
    let final_search_query := pyOrStr search_query user_question
    let allowed := fallbackAllowed env user_question
    let r := searchSegments env user_question (some final_search_query)
      allowed TOTAL_SEGMENT_TARGET
    if r.1 = [] ∧ hasSummaryText r.2 = false then Except.ok noContentMsg
    else env.gen
  else env.gen

/- ------------------------------------------------------------------ -/
/- Session state and the /ask handler (telegram_handler.py)            -/
/- ------------------------------------------------------------------ -/

/-- The per-conversation session state dictionary as created by
`ask_command` (telegram_handler.py lines 82-88); `pending_summary` and
`awaiting_save` are absent until `_summarize_task` adds them, which Python's
`state.get(...)` reads as falsy — modelled by the `none` / `false`
defaults. -/
structure ConvState where
  customer_title : String
  page_id : String
  portrait : String
  history : List (String × String)
  pending_summary : Option String
  awaiting_save : Bool
deriving DecidableEq, Repr

/-- One Notion page hit as returned by `find_customer_pages_by_title`
(notion_service.py lines 102-114): the page id and the attached `_title`. -/
structure NotionPage where
  page_id : String
  title : String
deriving DecidableEq, Repr

/-- The effect of running one handler: the session store afterwards, the
replies sent, and the uncaught exception, if the handler raised. -/
structure HandlerResult where
  store : ℕ → Option ConvState
  replies : List String
  raised : Option String

/-- The positional-or-keyword parameters of `answer_question`
(generate.py line 49), all without defaults. -/
def answerQuestionParams : List String :=
  ["client", "title", "portrait", "question"]

/-- The defaulted parameters of `answer_question` (generate.py line 49). -/
def answerQuestionOptionalParams : List String := ["history"]

/-- Python call binding: given the required and defaulted parameter names,
the number of positional arguments and the keyword-argument names of a call,
return the `TypeError` message the interpreter raises, or `none` when the
call binds. -/
def bindPyCall (required optionalParams : List String) (npos : ℕ)
    (kwargs : List String) : Option String :=
  let params := required ++ optionalParams
  if params.length < npos then
    some "TypeError: too many positional arguments"
  else if kwargs.any (fun k => k ∈ params.take npos) then
    some "TypeError: multiple values for argument"
  else if kwargs.any (fun k => k ∉ params) then
    some "TypeError: unexpected keyword argument"
  else if required.all (fun p => p ∈ params.take npos ++ kwargs) then none
  else some "TypeError: missing required positional argument"

/-- The session-conflict rejection reply (telegram_handler.py lines 46-49). -/
def busyReply (current_customer : String) : String :=
  "您目前正在與「" ++ current_customer ++
    "」的會談中。\n請先使用 /end 或 /cancel 指令結束目前的會談，才能開啟新的客戶資料。"

/-- The progress reply sent before calling `answer_question`
(lines 92 and 110). -/
def workingReply : String := "正在為您分析客戶畫像並生成回覆，請稍候..."

/-- `ask_command` (telegram_handler.py lines 38-124).  Oracles: `notionHits`
is the outcome of `find_customer_pages_by_title` (an `Except.error` is the
caught Notion exception of lines 61-65), `portraitOf` the portrait section
of a page, `answerText` the (always returned, never raised — generate.py
lines 54-61 catch) reply of a successfully bound `answer_question` call.
The call of line 113 passes only 3 positional arguments plus the `history`
keyword, which is modelled — like the correct 4-positional call of line 95
— through `bindPyCall`. -/
def askCommand (store : ℕ → Option ConvState) (chat_id : ℕ)
    (args : List String) (notionHits : Except String (List NotionPage))
    (portraitOf : String → String) (answerText : String) : HandlerResult :=
  match store chat_id with
  | some state =>
      { store := store, replies := [busyReply state.customer_title],
        raised := none }
  | none =>
    match args with
    | [] =>
        { store := store,
          replies := ["指令用法：\n- /ask [客戶名稱] [問題]\n- /ask [客戶名稱]"],
          raised := none }
    | customer_name :: rest =>
      match notionHits with
      | .error e =>
          { store := store, replies := ["從 Notion 查詢資料時發生錯誤：" ++ e],
            raised := none }
      | .ok hits =>
        match hits with
        | [] =>
            { store := store,
              replies := ["在 Notion 中找不到名為「" ++ customer_name ++ "」的客戶。"],
              raised := none }
        | page :: hrest =>
          if hrest ≠ [] then
            { store := store,
              replies := ["找到多筆符合的客戶，請更精確地指定名稱：\n- " ++
                String.intercalate "\n- " ((page :: hrest).map (fun h => h.title))],
              raised := none }
          else
            let title := if page.title = "" then "未命名" else page.title
            let portrait := portraitOf page.page_id
            let new_state : ConvState :=
              ⟨title, page.page_id, portrait, [], none, false⟩
            let store1 : ℕ → Option ConvState :=
              fun c => if c = chat_id then some new_state else store c
            if rest ≠ [] then
              let question := String.intercalate " " rest
              match bindPyCall answerQuestionParams answerQuestionOptionalParams
                  4 ["history"] with
              | some err =>
                  { store := store1, replies := [workingReply], raised := some err }
              | none =>
                let answer := answerText
                let updated : ConvState :=
                  { new_state with history := [("user", question), ("assistant", answer)] }
                let store2 : ℕ → Option ConvState :=
                  fun c => if c = chat_id then some updated else store1 c
                { store := store2,
                  replies := [workingReply,
                    "【" ++ title ++ "】\nQ: " ++ question ++ "\n\nA:\n" ++ answer ++
                      "\n\n（可成員討論，或使用 /query, /products, /end, /cancel 等指令詢問）"],
                  raised := none }
            else
              match bindPyCall answerQuestionParams answerQuestionOptionalParams
                  3 ["history"] with
              | some err =>
                  { store := store1, replies := [workingReply], raised := some err }
              | none =>
                let answer := answerText
                let updated : ConvState :=
                  { new_state with history := [("user", ""), ("assistant", answer)] }
                let store2 : ℕ → Option ConvState :=
                  fun c => if c = chat_id then some updated else store1 c
                { store := store2,
                  replies := [workingReply,
                    "A:\n" ++ answer ++
                      "\n\n（可成員討論，或使用 /query, /products, /end, /cancel 等指令詢問）"],
                  raised := none }

/- ------------------------------------------------------------------ -/
/- Handler registration and dispatch (main.py lines 52-62)             -/
/- ------------------------------------------------------------------ -/

/-- The handler functions of telegram_handler.py; `save` is
`save_command` (lines 184-246), which appends the pending summary to the
Notion page and deletes the session state. -/
inductive BotHandler where
  | start | ask | endCmd | cancel | query | products | searchDb
  | handleMessage | unknown | save
deriving DecidableEq, Repr

/-- One `add_handler` registration: a named `CommandHandler`, the
`MessageHandler(filters.TEXT & ~filters.COMMAND, ...)`, or the trailing
`MessageHandler(filters.COMMAND & ~filters.UpdateType.EDITED_MESSAGE, ...)`
catch-all. -/
inductive HandlerSpec where
  | command (name : String) (h : BotHandler)
  | textNonCommand (h : BotHandler)
  | commandCatchAll (h : BotHandler)
deriving DecidableEq, Repr

/-- The handler a registration routes to. -/
def HandlerSpec.handler : HandlerSpec → BotHandler
  | .command _ h => h
  | .textNonCommand h => h
  | .commandCatchAll h => h

/-- The registrations performed by `main` (main.py lines 52-62), in order.
`save_command` is neither imported by main.py nor registered. -/
def registeredHandlers : List HandlerSpec :=
  [ .command "start" .start,
    .command "ask" .ask,
    .command "end" .endCmd,
    .command "cancel" .cancel,
    .command "query" .query,
    .command "products" .products,
    .command "search_db" .searchDb,
    .textNonCommand .handleMessage,
    .commandCatchAll .unknown ]

/-- An incoming chat message: its text and whether it is an edit. -/
structure ChatMsg where
  text : String
  edited : Bool
deriving DecidableEq, Repr

/-- The command name of a message: the token after a leading `/`, up to the
first space (`None` for non-command text). -/
def commandNameOf (text : String) : Option String :=
  match text.toList with
  | [] => none
  | c :: rest =>
      if c == '/' then some ⟨rest.takeWhile (fun ch => ch != ' ')⟩ else none

/-- Whether one registration matches a message: a `CommandHandler` matches
exactly its command name; the text handler matches non-command text; the
catch-all matches any non-edited command. -/
def specAccepts (m : ChatMsg) : HandlerSpec → Bool
  | .command name _ => commandNameOf m.text == some name
  | .textNonCommand _ => (commandNameOf m.text).isNone
  | .commandCatchAll _ => (commandNameOf m.text).isSome && !m.edited

/-- Dispatch of one message: the application hands it to the first
registered handler whose filter accepts it. -/
def dispatch (m : ChatMsg) : Option BotHandler :=
  (registeredHandlers.find? (specAccepts m)).map HandlerSpec.handler

/-- Whether a handler performs the saved outcome — appending the pending
summary to the workspace page and deleting the session state.  In
telegram_handler.py only `save_command` (lines 184-246) calls
`append_blocks_to_page` and follows it with `delete_conv_state`; every
other handler leaves the workspace page untouched. -/
def performsSavedOutcome : BotHandler → Bool
  | .save => true
  | _ => false

/- ------------------------------------------------------------------ -/
/- Spec-modelled category matching (claim C2 comparison only)          -/
/- ------------------------------------------------------------------ -/

/-- Modelled from the spec: `matchByCategory` (spec §4.1) — no category
matcher exists anywhere under src/; this definition follows the spec's
words ("for every entry whose clean name contains a `-`-delimited prefix of
length ≥ 2, the entry matches if that prefix is a substring of the keyword;
first-token-before-first-hyphen, case-sensitive substring test") purely to
compare the claimed resolution policy with the code's actual one. -/
def matchByCategorySpec (kw : String) (catalog : List FileInfo) :
    List FileInfo :=
  catalog.filter (fun e =>
    let name := e.clean_name.toList
    if name.contains '-' then
      let pre := name.takeWhile (fun c => c != '-')
      decide (2 ≤ pre.length) && containsSub pre kw.toList
    else false)

/-- Modelled from the spec: the per-keyword resolution policy claim C2
asserts for `query_knowledge_base` — category-prefix hits accepted
outright, the vector match with the coverage gate only as a fallback. -/
def claimedResolveSpec (env : Env) (catalog : List FileInfo) (kw : String) :
    List String :=
  let cat := matchByCategorySpec kw catalog
  if cat ≠ [] then cat.map (fun e => e.clean_name)
  else (validInfos env kw).map (fun i => i.clean_name)

/- ------------------------------------------------------------------ -/
/- Helper lemmas                                                       -/
/- ------------------------------------------------------------------ -/

lemma insertSegDesc_length (a : Segment) (l : List Segment) :
    (insertSegDesc a l).length = l.length + 1 := by
  induction l with
  | nil => rfl
  | cons b bs ih =>
      unfold insertSegDesc
      split
      · simp
      · simp [ih]

lemma sortSegsDesc_length (l : List Segment) :
    (sortSegsDesc l).length = l.length := by
  induction l with
  | nil => rfl
  | cons a l ih =>
      show (insertSegDesc a (sortSegsDesc l)).length = l.length + 1
      rw [insertSegDesc_length, ih]

lemma searchSegments_fst_length_le (env : Env) (uq : String)
    (sq : Option String) (allowed : Option (List String)) (k : ℕ) :
    ((searchSegments env uq sq allowed k).1).length ≤ k := by
  unfold searchSegments
  cases h : env.search (pyOrStr sq uq) with
  | error e => simp [h]
  | ok resp =>
      simp only [h, processResponse]
      rw [List.length_take]
      omega

lemma kwResolve_fst_length_le (env : Env) (uq : String) (quota : ℕ)
    (kw : String) : ((kwResolve env uq quota kw).1).length ≤ quota := by
  simp only [kwResolve]
  split
  · simp
  · exact searchSegments_fst_length_le _ _ _ _ _

lemma multiPhase_foldl_length_le (env : Env) (uq : String) (quota : ℕ) :
    ∀ (kws : List String) (acc : List Segment × List String),
      ((kws.foldl (kwStep env uq quota) acc).1).length ≤
        acc.1.length + kws.length * quota := by
  intro kws
  induction kws with
  | nil => intro acc; simp
  | cons kw kws ih =>
      intro acc
      rw [List.foldl_cons]
      calc ((kws.foldl (kwStep env uq quota) (kwStep env uq quota acc kw)).1).length
          ≤ (kwStep env uq quota acc kw).1.length + kws.length * quota := ih _
        _ ≤ (acc.1.length + quota) + kws.length * quota := by
            simp only [kwStep, List.length_append]
            exact Nat.add_le_add_right
              (Nat.add_le_add_left (kwResolve_fst_length_le env uq quota kw) _) _
        _ = acc.1.length + (kws.length + 1) * quota := by ring
        _ = acc.1.length + (kw :: kws).length * quota := by
            rw [List.length_cons]

lemma base_le_high : BASE_THRESHOLD ≤ HIGH_CONF := by decide

/- ------------------------------------------------------------------ -/
/- Claim C1                                                            -/
/- ------------------------------------------------------------------ -/

/-- C1: for every non-empty keyword list obtained by splitting the product
filter (N keywords), `query_knowledge_base` uses the per-product quota
`max(1, 12 // N)` (with `TOTAL_SEGMENT_TARGET = 12`), each per-keyword
retrieval contributes at most that quota of segments, and the merged
multi-product result holds at most `N * max(1, 12 // N)` segments. -/
theorem multiProductPhase_quota_bound (env : Env) (uq pf : String)
    (h : splitKeywords (cleanFilterStr pf) ≠ []) :
    quotaPerProduct (splitKeywords (cleanFilterStr pf)).length =
        max 1 (12 / (splitKeywords (cleanFilterStr pf)).length) ∧
    (∀ kw, ((kwResolve env uq
        (quotaPerProduct (splitKeywords (cleanFilterStr pf)).length) kw).1).length ≤
        quotaPerProduct (splitKeywords (cleanFilterStr pf)).length) ∧
    ((multiProductPhase env uq pf).1).length ≤
        (splitKeywords (cleanFilterStr pf)).length *
          quotaPerProduct (splitKeywords (cleanFilterStr pf)).length := by
  refine ⟨rfl, fun kw => kwResolve_fst_length_le _ _ _ _, ?_⟩
  unfold multiProductPhase
  rw [if_neg h]
  calc ((List.foldl _ ([], []) (splitKeywords (cleanFilterStr pf))).1).length
      ≤ ([] : List Segment).length +
          (splitKeywords (cleanFilterStr pf)).length *
            quotaPerProduct (splitKeywords (cleanFilterStr pf)).length :=
        multiPhase_foldl_length_le env uq _ _ _
    _ = (splitKeywords (cleanFilterStr pf)).length *
          quotaPerProduct (splitKeywords (cleanFilterStr pf)).length := by simp

/-- A trivial environment: nothing embeds, every backend call fails. -/
def cEnvTriv : Env := ⟨fun _ => [], fun _ => .error (), .error ()⟩

/-- Witness for C1 at a concrete two-keyword filter. -/
theorem multiProductPhase_quota_bound_witness :
    splitKeywords (cleanFilterStr "甲產品,乙產品") ≠ [] ∧
    ((multiProductPhase cEnvTriv "q" "甲產品,乙產品").1).length ≤
      (splitKeywords (cleanFilterStr "甲產品,乙產品")).length *
        quotaPerProduct (splitKeywords (cleanFilterStr "甲產品,乙產品")).length :=
  ⟨by decide,
    (multiProductPhase_quota_bound cEnvTriv "q" "甲產品,乙產品" (by decide)).2.2⟩

/- ------------------------------------------------------------------ -/
/- Claim C2                                                            -/
/- ------------------------------------------------------------------ -/

/-- The catalog entry used to separate the claimed category-first policy
from the code's vector-only resolution. -/
def cEntry : FileInfo := ⟨"AB-Product.pdf", "AB-Product"⟩

/-- An environment whose embedding index scores `cEntry` at 0.6 for the
keyword 「AB保險」. -/
def cEnvC2 : Env :=
  { scored := fun kw => if kw = "AB保險" then [(mkRat 3 5, cEntry)] else [],
    search := fun _ => .error (),
    gen := .error () }

/-- C2, counterexample: the claimed category-first resolution and the
code's actual resolution disagree.  For keyword 「AB保險」 and catalog entry
`AB-Product`, the category-prefix rule (prefix `AB`, length ≥ 2, substring
of the keyword) accepts the entry outright, but `query_knowledge_base`
(gcp_service.py lines 241-259) runs no category matching: it vector-matches
(score 0.6) and rejects the candidate because its character coverage 1/2 is
below the 0.6 threshold, producing an empty allow-list. -/
theorem keyword_resolution_no_category_cex :
    claimedResolveSpec cEnvC2 [cEntry] "AB保險" = ["AB-Product"] ∧
    (validInfos cEnvC2 "AB保險").map (fun i => i.clean_name) = [] ∧
    claimedResolveSpec cEnvC2 [cEntry] "AB保險" ≠
      (validInfos cEnvC2 "AB保險").map (fun i => i.clean_name) := by
  refine ⟨by decide, by decide, by decide⟩

/-- C2, amended: for every keyword, the candidates are resolved by vector
matching only (top 3 above the 0.55 base threshold, gcp_service.py line
242), and a candidate enters the keyword's allow-list exactly when its
character-overlap coverage reaches the threshold — 0.5 when its vector
score is at least 0.7, otherwise 1.0 for keywords with fewer than 3
distinct characters and 0.6 for the rest (lines 245-259). -/
theorem validInfos_mem_iff (env : Env) (kw : String) (info : FileInfo) :
    info ∈ validInfos env kw ↔
      ∃ s, (s, info) ∈ matchFilenamesByVector (env.scored kw) 3 BASE_THRESHOLD ∧
        (if HIGH_CONF ≤ s then mkRat 1 2
         else if (kwChars kw).length < 3 then mkRat 1 1 else mkRat 3 5) ≤
          coverage kw info := by
  unfold validInfos
  rw [List.mem_filterMap]
  constructor
  · rintro ⟨⟨s, i⟩, hm, hf⟩
    by_cases hc : covThreshold s kw ≤ coverage kw i
    · rw [if_pos hc] at hf
      injection hf with hi
      subst hi
      exact ⟨s, hm, by simpa [covThreshold] using hc⟩
    · rw [if_neg hc] at hf
      cases hf
  · rintro ⟨s, hm, hc⟩
    exact ⟨(s, info), hm, by rw [if_pos (by simpa [covThreshold] using hc)]⟩

/-- Witness for the amended C2: a candidate with vector score 0.8 and full
coverage is in the allow-list of its keyword. -/
theorem validInfos_mem_iff_witness :
    cEntry ∈ validInfos
      { scored := fun _ => [(mkRat 4 5, cEntry)],
        search := fun _ => .error (), gen := .error () } "ab" :=
  (validInfos_mem_iff
      { scored := fun _ => [(mkRat 4 5, cEntry)],
        search := fun _ => .error (), gen := .error () } "ab" cEntry).2
    ⟨mkRat 4 5, by decide, by decide⟩

/- ------------------------------------------------------------------ -/
/- Claim C3                                                            -/
/- ------------------------------------------------------------------ -/

/-- A document over which the fallback retrieval finds one segment. -/
def cDocA : SearchDoc :=
  { title := none, document_title := none,
    link := some "gs://bucket/ProductA.pdf",
    extractive_segments := [⟨"hello", some 3, some (mkRat 9 10), none⟩] }

/-- A one-document search response without a summary. -/
def cRespA : SearchResponse := { results := [cDocA], summary := none }

/-- An environment whose search succeeds with `cRespA` but whose generation
call raises. -/
def cEnvGenErr : Env :=
  { scored := fun _ => [], search := fun _ => .ok cRespA, gen := .error () }

/-- C3, counterexample: when the generation call raises after the fallback
retrieval found a segment, `query_knowledge_base` does not return any
user-facing string — `generate_with_gemini` (generate.py lines 238-296)
performs no exception handling and `query_knowledge_base` (gcp_service.py
lines 323-331) none either, so the error reaches the caller as a crash. -/
theorem queryKnowledgeBase_gen_crash_cex :
    ¬ ∃ s, queryKnowledgeBase cEnvGenErr "q" none none none = Except.ok s := by
  rintro ⟨s, hs⟩
  rw [show queryKnowledgeBase cEnvGenErr "q" none none none = Except.error ()
    from rfl] at hs
  cases hs

/-- C3, amended: an error raised by the remote generation call propagates
unchanged out of `query_knowledge_base`; the only reply produced without a
successful generation call is the early no-content terminal message, which
skips generation entirely. -/
theorem queryKnowledgeBase_gen_error_cases (env : Env) (uq : String)
    (pf sq ch : Option String) (hg : env.gen = Except.error ()) :
    queryKnowledgeBase env uq pf sq ch = Except.error () ∨
    queryKnowledgeBase env uq pf sq ch = Except.ok noContentMsg := by
  simp only [queryKnowledgeBase]
  split_ifs <;> simp [hg]

/-- Witness for the amended C3 at the concrete crashing environment. -/
theorem queryKnowledgeBase_gen_error_cases_witness :
    cEnvGenErr.gen = Except.error () ∧
    (queryKnowledgeBase cEnvGenErr "q" none none none = Except.error () ∨
     queryKnowledgeBase cEnvGenErr "q" none none none = Except.ok noContentMsg) :=
  ⟨rfl, queryKnowledgeBase_gen_error_cases cEnvGenErr "q" none none none rfl⟩

/- ------------------------------------------------------------------ -/
/- Claim C4                                                            -/
/- ------------------------------------------------------------------ -/

/-- C4: when some indexed entry scores at least 0.70 against the keyword's
query embedding, `_match_filenames_by_vector` returns exactly the entries
scoring at least 0.70, sorted descending and truncated to `top_k`; when no
entry reaches 0.70 it returns the entries scoring at least the 0.55 base
threshold, sorted descending and truncated to `top_k`. -/
theorem matchFilenamesByVector_high_conf (scored : List (ℚ × FileInfo))
    (k : ℕ) :
    (scored.filter (fun m => HIGH_CONF ≤ m.1) ≠ [] →
      matchFilenamesByVector scored k BASE_THRESHOLD =
        (sortMatchesDesc (scored.filter (fun m => HIGH_CONF ≤ m.1))).take k) ∧
    (scored.filter (fun m => HIGH_CONF ≤ m.1) = [] →
      matchFilenamesByVector scored k BASE_THRESHOLD =
        (sortMatchesDesc (scored.filter (fun m => BASE_THRESHOLD ≤ m.1))).take k) := by
  have hff : (scored.filter (fun m => BASE_THRESHOLD ≤ m.1)).filter
      (fun m => HIGH_CONF ≤ m.1) = scored.filter (fun m => HIGH_CONF ≤ m.1) := by
    rw [List.filter_filter]
    apply List.filter_congr
    intro a _
    by_cases hh : HIGH_CONF ≤ a.1
    · have hb : BASE_THRESHOLD ≤ a.1 := le_trans base_le_high hh
      simp [hh, hb]
    · simp [hh]
  constructor
  · intro h
    simp only [matchFilenamesByVector, hff]
    rw [if_neg h]
  · intro h
    simp only [matchFilenamesByVector, hff]
    rw [if_pos h]

/-- A second catalog entry for the C4 witness. -/
def cEntry2 : FileInfo := ⟨"CD-Other.pdf", "CD-Other"⟩

/-- Concrete score list: one high-confidence entry (0.8) and one that only
clears the base threshold (0.6). -/
def cScored : List (ℚ × FileInfo) :=
  [(mkRat 4 5, cEntry), (mkRat 3 5, cEntry2)]

/-- Witness for C4: with the 0.8-scored entry present, the result is
exactly the high-confidence subset. -/
theorem matchFilenamesByVector_high_conf_witness :
    cScored.filter (fun m => HIGH_CONF ≤ m.1) ≠ [] ∧
    matchFilenamesByVector cScored 3 BASE_THRESHOLD =
      (sortMatchesDesc (cScored.filter (fun m => HIGH_CONF ≤ m.1))).take 3 :=
  ⟨by decide, (matchFilenamesByVector_high_conf cScored 3).1 (by decide)⟩

/- ------------------------------------------------------------------ -/
/- Claim C5                                                            -/
/- ------------------------------------------------------------------ -/

/-- C5: with a non-empty allow-list, a document whose parsed filename title
is not an exact member of the list is discarded by `_search_segments` and
contributes no segments — the result is the one computed from the response
with that document removed. -/
theorem searchSegments_allowlist_excludes (env : Env) (uq : String)
    (sq : Option String) (resp : SearchResponse) (pre post : List SearchDoc)
    (doc : SearchDoc) (l : List String) (k : ℕ)
    (hq : env.search (pyOrStr sq uq) = .ok resp)
    (hres : resp.results = pre ++ doc :: post)
    (hl : l ≠ [])
    (hdoc : filenameAllowed l doc = false) :
    searchSegments env uq sq (some l) k =
      processResponse ⟨pre ++ post, resp.summary⟩ (some l) k := by
  have hkept : docKept (some l) doc = false := by
    simp [docKept, hl, hdoc]
  simp only [searchSegments]
  rw [hq]
  show processResponse resp (some l) k = _
  unfold processResponse
  rw [hres]
  simp [List.filter_append, List.filter_cons, hkept]

/-- An environment whose search always returns the one-document response
`cRespA` (document `ProductA`). -/
def cEnvA : Env :=
  { scored := fun _ => [], search := fun _ => .ok cRespA, gen := .ok "ans" }

/-- Witness for C5: the parsed title is `ProductA`, the allow-list holds
only `producta`, membership is case-sensitive, so the document — and with
it every segment — is dropped. -/
theorem searchSegments_allowlist_excludes_witness :
    parseFilenameTitle cDocA.link = some "ProductA" ∧
    filenameAllowed ["producta"] cDocA = false ∧
    searchSegments cEnvA "q" none (some ["producta"]) 12 =
      processResponse ⟨[], cRespA.summary⟩ (some ["producta"]) 12 ∧
    (searchSegments cEnvA "q" none (some ["producta"]) 12).1 = [] :=
  ⟨by decide, by decide,
    searchSegments_allowlist_excludes cEnvA "q" none cRespA [] [] cDocA
      ["producta"] 12 rfl rfl (by decide) (by decide),
    by decide⟩

/- ------------------------------------------------------------------ -/
/- Claim C6                                                            -/
/- ------------------------------------------------------------------ -/

/-- C6: when the backend call inside `_search_segments` raises, the
function returns `([], None)` instead of re-raising (gcp_service.py lines
184-190). -/
theorem searchSegments_backend_failure (env : Env) (uq : String)
    (sq : Option String) (allowed : Option (List String)) (k : ℕ)
    (h : env.search (pyOrStr sq uq) = .error ()) :
    searchSegments env uq sq allowed k = ([], none) := by
  simp only [searchSegments]
  rw [h]

/-- An environment whose search backend always raises. -/
def cEnvSearchErr : Env :=
  { scored := fun _ => [], search := fun _ => .error (), gen := .ok "x" }

/-- Witness for C6 at the concrete failing backend. -/
theorem searchSegments_backend_failure_witness :
    cEnvSearchErr.search (pyOrStr none "q") = .error () ∧
    searchSegments cEnvSearchErr "q" none none 12 = ([], none) :=
  ⟨rfl, searchSegments_backend_failure cEnvSearchErr "q" none none 12 rfl⟩

/- ------------------------------------------------------------------ -/
/- Claim C7                                                            -/
/- ------------------------------------------------------------------ -/

/-- C7: when the multi-product phase produced no segments,
`query_knowledge_base` performs the single fallback retrieval — allow-list
from the top-5 vector match of the whole question (`fallbackAllowed`), full
budget `TOTAL_SEGMENT_TARGET = 12` — and if that retrieval yields no
segments and no backend summary text, the fixed no-content message is
returned as the terminal outcome (gcp_service.py lines 287-308). -/
theorem queryKnowledgeBase_fallback_no_content (env : Env) (uq : String)
    (pf sq ch : Option String) (summ : Option SummaryObj)
    (h1 : (phase1Result env uq pf).1 = [])
    (h2 : searchSegments env uq (some (pyOrStr sq uq)) (fallbackAllowed env uq)
        TOTAL_SEGMENT_TARGET = ([], summ))
    (h3 : hasSummaryText summ = false) :
    queryKnowledgeBase env uq pf sq ch = Except.ok noContentMsg := by
  simp only [queryKnowledgeBase]
  rw [h1, if_pos rfl, h2]
  simp [h3]

/-- An environment with an empty index and an empty (but successful) search
response. -/
def cEnvEmpty : Env :=
  { scored := fun _ => [], search := fun _ => .ok ⟨[], none⟩, gen := .ok "x" }

/-- Witness for C7: with nothing resolved and an empty fallback response
without summary, the fixed no-content message is returned. -/
theorem queryKnowledgeBase_fallback_no_content_witness :
    (phase1Result cEnvEmpty "q" none).1 = [] ∧
    hasSummaryText none = false ∧
    queryKnowledgeBase cEnvEmpty "q" none none none = Except.ok noContentMsg :=
  ⟨rfl, rfl,
    queryKnowledgeBase_fallback_no_content cEnvEmpty "q" none none none none
      rfl rfl rfl⟩

/- ------------------------------------------------------------------ -/
/- Claim C8                                                            -/
/- ------------------------------------------------------------------ -/

/-- C8: when the conversation already has an active session state, a new
`/ask` command is rejected with the reply naming the active customer, the
session store is returned unchanged, and nothing is raised
(telegram_handler.py lines 43-50). -/
theorem askCommand_active_session_rejected (store : ℕ → Option ConvState)
    (chat_id : ℕ) (args : List String)
    (notionHits : Except String (List NotionPage))
    (portraitOf : String → String) (answerText : String) (st : ConvState)
    (h : store chat_id = some st) :
    askCommand store chat_id args notionHits portraitOf answerText =
      { store := store, replies := [busyReply st.customer_title],
        raised := none } := by
  unfold askCommand
  rw [h]

/-- A concrete active session state. -/
def cState : ConvState := ⟨"王小明", "pid1", "肖像", [], none, false⟩

/-- A store in which conversation 5 already has `cState`. -/
def cStoreBusy : ℕ → Option ConvState :=
  fun c => if c = 5 then some cState else none

/-- Witness for C8: the new `/ask` on conversation 5 is rejected with the
message naming 「王小明」 and the store is untouched. -/
theorem askCommand_active_session_rejected_witness :
    cStoreBusy 5 = some cState ∧
    askCommand cStoreBusy 5 ["新客戶", "問題"] (.ok []) (fun _ => "") "a" =
      { store := cStoreBusy, replies := [busyReply "王小明"], raised := none } :=
  ⟨rfl, askCommand_active_session_rejected cStoreBusy 5 ["新客戶", "問題"]
    (.ok []) (fun _ => "") "a" cState rfl⟩

/- ------------------------------------------------------------------ -/
/- Claim C9                                                            -/
/- ------------------------------------------------------------------ -/

/-- C9: `save_command` is routed to by no registration of main.py — the
registered handlers are exactly start, ask, end, cancel, query, products,
search_db, the plain-text handler and the unknown-command catch-all — so no
incoming chat command ever dispatches to a handler that performs the saved
outcome, and a session whose `awaiting_save` flag is set can never reach it
through chat commands. -/
theorem saveCommand_unreachable :
    (∀ spec ∈ registeredHandlers, HandlerSpec.handler spec ≠ BotHandler.save) ∧
    (∀ (m : ChatMsg) (h : BotHandler), dispatch m = some h →
      performsSavedOutcome h = false) ∧
    (∀ msgs : List ChatMsg,
      (msgs.filterMap dispatch).all (fun h => !performsSavedOutcome h) = true) := by
  have key : ∀ (m : ChatMsg) (h : BotHandler), dispatch m = some h →
      performsSavedOutcome h = false := by
    intro m h hd
    unfold dispatch at hd
    cases hf : registeredHandlers.find? (specAccepts m) with
    | none => rw [hf] at hd; cases hd
    | some spec =>
        rw [hf] at hd
        injection hd with hh
        subst hh
        have hmem : spec ∈ registeredHandlers := List.mem_of_find?_eq_some hf
        fin_cases hmem <;> decide
  refine ⟨by decide, key, ?_⟩
  intro msgs
  rw [List.all_eq_true]
  intro h hmem
  rw [List.mem_filterMap] at hmem
  obtain ⟨m, _, hd⟩ := hmem
  rw [key m h hd]
  rfl

/-- Witness for C9: the message `/save` dispatches to the unknown-command
catch-all, which does not perform the saved outcome. -/
theorem saveCommand_unreachable_witness :
    dispatch ⟨"/save", false⟩ = some BotHandler.unknown ∧
    performsSavedOutcome BotHandler.unknown = false :=
  ⟨by decide,
    saveCommand_unreachable.2.1 ⟨"/save", false⟩ BotHandler.unknown (by decide)⟩

/- ------------------------------------------------------------------ -/
/- Claim C10                                                           -/
/- ------------------------------------------------------------------ -/

/-- C10: an `/ask` with exactly a customer name (no question) that resolves
a unique page stores the fresh session state for the conversation, sends
only the progress reply, and then raises a `TypeError` from the
`answer_question` call of telegram_handler.py line 113, which omits the
required leading `client` argument (binding 3 positionals plus `history`
against generate.py line 49 leaves `question` unfilled). -/
theorem askCommand_missing_question_raises (store : ℕ → Option ConvState)
    (chat_id : ℕ) (name : String) (page : NotionPage)
    (portraitOf : String → String) (answerText : String)
    (h : store chat_id = none) :
    (askCommand store chat_id [name] (.ok [page]) portraitOf answerText).raised =
        some "TypeError: missing required positional argument" ∧
    (askCommand store chat_id [name] (.ok [page]) portraitOf answerText).store
        chat_id =
      some ⟨if page.title = "" then "未命名" else page.title, page.page_id,
        portraitOf page.page_id, [], none, false⟩ ∧
    (askCommand store chat_id [name] (.ok [page]) portraitOf answerText).replies =
      [workingReply] := by
  unfold askCommand
  rw [h, show bindPyCall answerQuestionParams answerQuestionOptionalParams 3
    ["history"] = some "TypeError: missing required positional argument" from rfl]
  refine ⟨rfl, ?_, rfl⟩
  simp

/-- A concrete empty session store. -/
def cStoreEmpty : ℕ → Option ConvState := fun _ => none

/-- A concrete unique Notion hit. -/
def cPage : NotionPage := ⟨"pid9", "李四"⟩

/-- Witness for C10: the one-argument `/ask` on conversation 7 stores the
new state and raises the `TypeError`. -/
theorem askCommand_missing_question_raises_witness :
    cStoreEmpty 7 = none ∧
    (askCommand cStoreEmpty 7 ["李"] (.ok [cPage]) (fun _ => "p") "a").raised =
        some "TypeError: missing required positional argument" ∧
    (askCommand cStoreEmpty 7 ["李"] (.ok [cPage]) (fun _ => "p") "a").store 7 =
      some ⟨if cPage.title = "" then "未命名" else cPage.title, cPage.page_id,
        (fun _ => "p") cPage.page_id, [], none, false⟩ :=
  ⟨rfl,
    (askCommand_missing_question_raises cStoreEmpty 7 "李" cPage
      (fun _ => "p") "a" rfl).1,
    (askCommand_missing_question_raises cStoreEmpty 7 "李" cPage
      (fun _ => "p") "a" rfl).2.1⟩

end CoopKB
